import Mathlib

/-!
Verification development for the LLM Router core (cost-aware model routing
and usage accounting).

The embedding below is a direct shallow translation of the TypeScript class
`LLMRouter` and its associated interfaces.  JavaScript numbers are modelled
as exact rationals (`ℚ`); optional fields become `Option`; the external
OpenAI client is modelled as an explicit oracle function passed to the
operations; thrown exceptions become `Except.error`; the `console.log`
cost-tracking side effect is modelled as an explicit list of
`(organizationId, cost)` events returned alongside the result.  Wall-clock
latency measurement (`Date.now()`) and the free-form metadata map are
elided, as they carry no verified content.
-/

/-- Quality tier of a model: `low`, `medium` or `high`. -/
inductive Quality where
  | low
  | medium
  | high
deriving DecidableEq, Repr

/-- Catalog entry for one backing model (interface `ModelConfig`). -/
structure ModelConfig where
  provider : String
  model : String
  maxTokens : ℚ
  costPer1kInput : ℚ
  costPer1kOutput : ℚ
  latencyMs : ℚ
  quality : Quality
  capabilities : List String
deriving DecidableEq, Repr

/-- Per-request routing constraints (interface `RoutingConstraints`). -/
structure RoutingConstraints where
  maxCost : ℚ
  maxLatency : ℚ
  requiredQuality : Quality
  requiredCapabilities : List String
  task : String
  locale : String
deriving DecidableEq, Repr

/-- The `gpt-4o` catalog entry. -/
def gpt4o : ModelConfig :=
  { provider := "openai"
    model := "gpt-4o"
    maxTokens := 128000
    costPer1kInput := 0.005
    costPer1kOutput := 0.015
    latencyMs := 2000
    quality := Quality.high
    capabilities := ["reasoning", "creativity", "analysis", "multimodal"] }

/-- The `gpt-4o-mini` catalog entry. -/
def gpt4oMini : ModelConfig :=
  { provider := "openai"
    model := "gpt-4o-mini"
    maxTokens := 128000
    costPer1kInput := 0.00015
    costPer1kOutput := 0.0006
    latencyMs := 1000
    quality := Quality.medium
    capabilities := ["reasoning", "creativity", "analysis"] }

/-- The `gpt-3.5-turbo` catalog entry. -/
def gpt35turbo : ModelConfig :=
  { provider := "openai"
    model := "gpt-3.5-turbo"
    maxTokens := 16385
    costPer1kInput := 0.0005
    costPer1kOutput := 0.0015
    latencyMs := 500
    quality := Quality.low
    capabilities := ["basic_reasoning", "creativity"] }

/-- The `text-embedding-3-small` catalog entry. -/
def textEmbedding3Small : ModelConfig :=
  { provider := "openai"
    model := "text-embedding-3-small"
    maxTokens := 8192
    costPer1kInput := 0.00002
    costPer1kOutput := 0
    latencyMs := 200
    quality := Quality.medium
    capabilities := ["embeddings"] }

/-- The catalog `initializeModels`, in `Map` insertion order (a JavaScript
`Map` iterates in insertion order, so `Array.from(map.values())` yields
exactly this list). -/
def initializeModels : List ModelConfig :=
  [gpt4o, gpt4oMini, gpt35turbo, textEmbedding3Small]

/-- Lookup `this.models.get(name)` by key.  The catalog keys coincide with
the `model` field of each entry. -/
def modelsGet (name : String) : Option ModelConfig :=
  initializeModels.find? fun m => m.model == name

/-- The combined per-1000-token rate `costPer1kInput + costPer1kOutput`
used both by the cost filter and the sort comparator in `routeRequest`. -/
def combinedCost (m : ModelConfig) : ℚ :=
  m.costPer1kInput + m.costPer1kOutput

/-- The filter predicate of `routeRequest` (the arrow function passed to
`.filter`), with its three early-return checks in source order.  In the
cost check, the JavaScript guard `constraints.maxCost && ...` skips the
comparison when `maxCost` is the falsy number `0`. -/
def passesFilter (constraints : RoutingConstraints) (model : ModelConfig) : Bool :=
  if constraints.requiredQuality = Quality.high ∧ model.quality ≠ Quality.high then false
  else if constraints.requiredQuality = Quality.medium ∧ model.quality = Quality.low then false
  else if ¬ (constraints.requiredCapabilities.all fun cap => model.capabilities.contains cap) then
    false
  else if constraints.maxCost ≠ 0 ∧ combinedCost model > constraints.maxCost then false
  else true

/-- The local `availableModels` of `routeRequest`: the catalog filtered by
the constraint predicate, in catalog order. -/
def availableModels (constraints : RoutingConstraints) : List ModelConfig :=
  initializeModels.filter (passesFilter constraints)

/-- Stable insertion of a model into a cost-sorted list: the inserted
element goes before the first element whose combined cost is not smaller. -/
def insertByCost (x : ModelConfig) : List ModelConfig → List ModelConfig
  | [] => [x]
  | y :: ys =>
    if combinedCost x ≤ combinedCost y then x :: y :: ys else y :: insertByCost x ys

/-- Stable insertion sort by combined cost.  ECMAScript
`Array.prototype.sort` is specification-stable, and the comparator
`(a, b) => aCost - bCost` is consistent, so the sorted array produced by
the source is exactly the stable sort by combined cost modelled here. -/
def sortByCost : List ModelConfig → List ModelConfig
  | [] => []
  | x :: xs => insertByCost x (sortByCost xs)

/-- Selection `routeRequest`: filter the catalog, fail when nothing survives,
otherwise sort ascending by combined cost and return the first entry. -/
def routeRequest (constraints : RoutingConstraints) : Except String ModelConfig :=
  if (availableModels constraints).isEmpty then
    Except.error ("No models available for the given constraints")
  else
    match sortByCost (availableModels constraints) with
    | m :: _ => Except.ok m
    | [] => Except.error ("No models available for the given constraints")

/-- Role of one chat message. -/
inductive Role where
  | system
  | user
  | assistant
deriving DecidableEq, Repr

/-- One chat message (interface `ChatMessage`). -/
structure ChatMessage where
  role : Role
  content : String
  name : Option String
deriving Repr

/-- A chat request (interface `ChatRequest`); optional generation
parameters are `Option`s, matching the optional TypeScript fields. -/
structure ChatRequest where
  messages : List ChatMessage
  model : Option String
  maxTokens : Option ℚ
  temperature : Option ℚ
  topP : Option ℚ
  stream : Option Bool
deriving Repr

/-- JavaScript `v || d` on an optional number: `undefined` and the falsy
number `0` both fall back to the default. -/
def jsOr (v : Option ℚ) (d : ℚ) : ℚ :=
  match v with
  | none => d
  | some x => if x = 0 then d else x

/-- The argument object passed to `openai.chat.completions.create`. -/
structure ChatCallParams where
  model : String
  messages : List (Role × String)
  max_tokens : ℚ
  temperature : ℚ
  top_p : ℚ
  stream : Bool
deriving Repr

/-- Construction of the provider-call arguments (lines of `chatCompletion`
building the `create` call): messages are projected to role/content pairs,
`max_tokens` is `Math.min(request.maxTokens || 1000, selectedModel.maxTokens)`,
`temperature` is `request.temperature || 0.7`, `top_p` is
`request.topP || 1`, and streaming is disabled. -/
def buildChatParams (request : ChatRequest) (selectedModel : ModelConfig) : ChatCallParams :=
  { model := selectedModel.model
    messages := request.messages.map fun msg => (msg.role, msg.content)
    max_tokens := min (jsOr request.maxTokens 1000) selectedModel.maxTokens
    temperature := jsOr request.temperature 0.7
    top_p := jsOr request.topP 1
    stream := false }

/-- Token usage block of a provider chat completion. -/
structure CompletionUsage where
  prompt_tokens : ℚ
  completion_tokens : ℚ
  total_tokens : ℚ
deriving Repr

/-- One choice of a provider chat completion; `content` is nullable in the
provider schema. -/
structure CompletionChoice where
  content : Option String
  finish_reason : String
deriving Repr

/-- A provider chat completion; the `usage` block may be absent. -/
structure ChatCompletion where
  choices : List CompletionChoice
  usage : Option CompletionUsage
deriving Repr

/-- Cost computation `calculateCost`: token counts converted to money with the selected
model's per-1000-token rates.  Exact rational arithmetic; no rounding. -/
def calculateCost (inputTokens outputTokens : ℚ) (model : ModelConfig) : ℚ :=
  let inputCost := (inputTokens / 1000) * model.costPer1kInput
  let outputCost := (outputTokens / 1000) * model.costPer1kOutput
  inputCost + outputCost

/-- Usage block of the router's response (field `usage` of
`ModelResponse`). -/
structure Usage where
  promptTokens : ℚ
  completionTokens : ℚ
  totalTokens : ℚ
  cost : ℚ
deriving Repr

/-- The router's chat response envelope (interface `ModelResponse`);
wall-clock `latency` and the metadata map are elided. -/
structure ModelResponse where
  provider : String
  model : String
  content : String
  usage : Usage
deriving Repr

/-- The `try`-block of `chatCompletion` (provider call through envelope
assembly), given the already-selected model.  The provider client is an
explicit oracle from call parameters to a result; a thrown provider error
is caught, logged and rethrown unchanged.  The returned list holds the
`(organizationId, cost)` pairs passed to the cost-tracking `console.log`
(whose `toFixed(6)` is display formatting only); the log happens right
after the cost is computed and before the response object is built, so an
empty `choices` array faults only after the cost event. -/
def tryChat (request : ChatRequest) (selectedModel : ModelConfig) (orgId : String)
    (openaiChat : ChatCallParams → Except String ChatCompletion) :
    Except String ModelResponse × List (String × ℚ) :=
  match openaiChat (buildChatParams request selectedModel) with
  | Except.error e => (Except.error e, [])
  | Except.ok completion =>
    match completion.usage with
    | none => (Except.error ("No usage data received from OpenAI"), [])
    | some usage =>
      let cost := calculateCost usage.prompt_tokens usage.completion_tokens selectedModel
      match completion.choices with
      | [] =>
        (Except.error ("TypeError: cannot read properties of undefined"), [(orgId, cost)])
      | choice0 :: _ =>
        (Except.ok
          { provider := selectedModel.provider
            model := selectedModel.model
            content := choice0.content.getD ("")
            usage :=
              { promptTokens := usage.prompt_tokens
                completionTokens := usage.completion_tokens
                totalTokens := usage.total_tokens
                cost := cost } },
         [(orgId, cost)])

/-- The constraints hardcoded by `chatCompletion` for every call. -/
def defaultChatConstraints : RoutingConstraints :=
  { maxCost := 0.10
    maxLatency := 5000
    requiredQuality := Quality.medium
    requiredCapabilities := ["basic_reasoning"]
    task := "chat"
    locale := "en" }

/-- Operation `chatCompletion`: route with the hardcoded constraints, then run the
`try`-block against the selected model.  A routing failure propagates and
produces no cost event.  The unused `userId` parameter is elided. -/
def chatCompletion (request : ChatRequest) (orgId : String)
    (openaiChat : ChatCallParams → Except String ChatCompletion) :
    Except String ModelResponse × List (String × ℚ) :=
  match routeRequest defaultChatConstraints with
  | Except.error e => (Except.error e, [])
  | Except.ok selectedModel => tryChat request selectedModel orgId openaiChat

/-- The `input` field of an embedding request: a single string or an array
of strings. -/
inductive EmbeddingInput where
  | single (s : String)
  | many (l : List String)
deriving DecidableEq, Repr

/-- The list of input texts denoted by an embedding input. -/
def inputTexts : EmbeddingInput → List String
  | EmbeddingInput.single s => [s]
  | EmbeddingInput.many l => l

/-- An embedding request (interface `EmbeddingRequest`). -/
structure EmbeddingRequest where
  input : EmbeddingInput
  model : Option String
deriving Repr

/-- One item of a provider embeddings response. -/
structure EmbeddingItem where
  embedding : List ℚ
  index : ℚ
  object : String
deriving DecidableEq, Repr

/-- Usage block of a provider embeddings response. -/
structure ProviderEmbeddingsUsage where
  prompt_tokens : ℚ
  total_tokens : ℚ
deriving DecidableEq, Repr

/-- A provider embeddings response. -/
structure ProviderEmbeddings where
  data : List EmbeddingItem
  usage : ProviderEmbeddingsUsage
deriving DecidableEq, Repr

/-- Usage block of the router's embeddings envelope. -/
structure EmbeddingUsage where
  promptTokens : ℚ
  totalTokens : ℚ
deriving DecidableEq, Repr

/-- The router's embeddings envelope (interface `EmbeddingResponse`). -/
structure EmbeddingResponse where
  data : List EmbeddingItem
  model : String
  usage : EmbeddingUsage
deriving DecidableEq, Repr

/-- Operation `generateEmbeddings`: look up the fixed embedding model, call the
provider with the model name and the raw request input, compute the cost
with zero output tokens, and assemble the envelope by mapping the provider
items field-by-field.  A provider error is caught, logged and rethrown
unchanged, producing no cost event. -/
def generateEmbeddings (request : EmbeddingRequest) (orgId : String)
    (openaiEmbed : String → EmbeddingInput → Except String ProviderEmbeddings) :
    Except String EmbeddingResponse × List (String × ℚ) :=
  match modelsGet ("text-embedding-3-small") with
  | none => (Except.error ("Embedding model not available"), [])
  | some embeddingModel =>
    match openaiEmbed embeddingModel.model request.input with
    | Except.error e => (Except.error e, [])
    | Except.ok embeddings =>
      let cost := calculateCost embeddings.usage.prompt_tokens 0 embeddingModel
      (Except.ok
        { data := embeddings.data.map fun item =>
            { embedding := item.embedding, index := item.index, object := item.object }
          model := embeddingModel.model
          usage :=
            { promptTokens := embeddings.usage.prompt_tokens
              totalTokens := embeddings.usage.total_tokens } },
       [(orgId, cost)])

/-- The record returned by `getCostSummary`; `breakdown` is modelled as an
association list (it is always the empty object in the source). -/
structure CostSummary where
  totalCost : ℚ
  totalTokens : ℚ
  requests : ℚ
  breakdown : List (String × ℚ)
deriving DecidableEq, Repr

/-- Operation `getCostSummary`: the source logs the arguments and returns placeholder
data unconditionally — there is no ledger anywhere in the class, so the
summary cannot depend on any previously executed calls. -/
def getCostSummary (orgId : String) (month : Option String) : CostSummary :=
  { totalCost := 0
    totalTokens := 0
    requests := 0
    breakdown := [] }

/-- Selection as the specification words it, for comparison with
`routeRequest`: fold over the feasible set keeping the current best entry,
replacing it only on a strict lexicographic improvement in
(combined rate, latency); on full ties the earlier catalog entry is kept. -/
def specSelect (constraints : RoutingConstraints) : Option ModelConfig :=
  (availableModels constraints).foldl
    (fun best m =>
      match best with
      | none => some m
      | some b =>
        if combinedCost m < combinedCost b ∨
            (combinedCost m = combinedCost b ∧ m.latencyMs < b.latencyMs) then
          some m
        else
          some b)
    none

/-- No catalog model passes the filter under the constraints hardcoded by
`chatCompletion`: the required capability `basic_reasoning` only appears on
`gpt-3.5-turbo`, which the `medium` quality requirement excludes. -/
lemma availableModels_defaults_empty : availableModels defaultChatConstraints = [] := by
  simp +decide [availableModels, initializeModels, passesFilter, defaultChatConstraints,
    gpt4o, gpt4oMini, gpt35turbo, textEmbedding3Small]

/-- Routing with the hardcoded chat constraints always fails. -/
lemma routeRequest_defaults_error :
    routeRequest defaultChatConstraints =
      Except.error ("No models available for the given constraints") := by
  simp [routeRequest, availableModels_defaults_empty]

/-- Every `chatCompletion` call fails at the routing step, before the
provider oracle is ever consulted, and records no cost event. -/
lemma chatCompletion_always_errors (request : ChatRequest) (orgId : String)
    (openaiChat : ChatCallParams → Except String ChatCompletion) :
    chatCompletion request orgId openaiChat =
      (Except.error ("No models available for the given constraints"), []) := by
  simp [chatCompletion, routeRequest_defaults_error]

/-- The catalog lookup performed by `generateEmbeddings` finds the
embedding model. -/
lemma modelsGet_embedding :
    modelsGet ("text-embedding-3-small") = some textEmbedding3Small := by
  simp +decide [modelsGet, initializeModels, gpt4o, gpt4oMini, gpt35turbo, textEmbedding3Small]

/-- C5: For every RoutingConstraints under which no catalog model passes
all of the quality, capability, and cost filters, routeRequest fails with
the no-feasible-model error and never returns any model. -/
theorem routeRequest_infeasible_error (constraints : RoutingConstraints)
    (h : availableModels constraints = []) :
    routeRequest constraints =
        Except.error ("No models available for the given constraints") ∧
      ∀ m : ModelConfig, routeRequest constraints ≠ Except.ok m := by
  have herr : routeRequest constraints =
      Except.error ("No models available for the given constraints") := by
    simp [routeRequest, h]
  exact ⟨herr, fun m hm => by simp [herr] at hm⟩

/-- Witness for C5 at concrete constraints requiring high quality together
with the `embeddings` capability, which no catalog model offers. -/
theorem routeRequest_infeasible_error_witness :
    availableModels
        { maxCost := 0, maxLatency := 0, requiredQuality := Quality.high,
          requiredCapabilities := ["embeddings"], task := "t", locale := "en" } = [] ∧
      (routeRequest
          { maxCost := 0, maxLatency := 0, requiredQuality := Quality.high,
            requiredCapabilities := ["embeddings"], task := "t", locale := "en" } =
          Except.error ("No models available for the given constraints") ∧
        ∀ m : ModelConfig,
          routeRequest
              { maxCost := 0, maxLatency := 0, requiredQuality := Quality.high,
                requiredCapabilities := ["embeddings"], task := "t", locale := "en" } ≠
            Except.ok m) :=
  ⟨by simp +decide [availableModels, initializeModels, passesFilter,
      gpt4o, gpt4oMini, gpt35turbo, textEmbedding3Small],
   routeRequest_infeasible_error _
    (by simp +decide [availableModels, initializeModels, passesFilter,
      gpt4o, gpt4oMini, gpt35turbo, textEmbedding3Small])⟩

/-- C8: when `maxCost` is the falsy number zero, the cost comparison of
the filter is skipped entirely, so a model is feasible exactly when it
passes the quality and capability checks, whatever its rates. -/
theorem passesFilter_zero_maxCost_ignores_cost (constraints : RoutingConstraints)
    (model : ModelConfig) (h : constraints.maxCost = 0) :
    passesFilter constraints model = true ↔
      ((constraints.requiredQuality = Quality.high → model.quality = Quality.high) ∧
        (constraints.requiredQuality = Quality.medium → model.quality ≠ Quality.low) ∧
        ∀ cap ∈ constraints.requiredCapabilities, cap ∈ model.capabilities) := by
  simp only [passesFilter, h, ne_eq, not_true_eq_false, false_and, if_false]
  cases hq : constraints.requiredQuality <;> cases hm : model.quality <;>
    simp [List.all_eq_true, List.elem_iff]

/-- Witness for C8: zero `maxCost` constraints requiring `reasoning` at
medium quality accept `gpt-4o` despite its being the costliest model. -/
theorem passesFilter_zero_maxCost_ignores_cost_witness :
    ({ maxCost := 0, maxLatency := 0, requiredQuality := Quality.medium,
        requiredCapabilities := ["reasoning"], task := "t",
        locale := "en" : RoutingConstraints }).maxCost = 0 ∧
      (passesFilter
          { maxCost := 0, maxLatency := 0, requiredQuality := Quality.medium,
            requiredCapabilities := ["reasoning"], task := "t", locale := "en" }
          gpt4o = true ↔
        ((Quality.medium = Quality.high → gpt4o.quality = Quality.high) ∧
          (Quality.medium = Quality.medium → gpt4o.quality ≠ Quality.low) ∧
          ∀ cap ∈ ["reasoning"], cap ∈ gpt4o.capabilities)) :=
  ⟨rfl, passesFilter_zero_maxCost_ignores_cost _ gpt4o rfl⟩

/-- C2: refuted on the code, which is the slip (the spec's default
capability set is `{reasoning}`): `chatCompletion` hardcodes
`requiredCapabilities = ["basic_reasoning"]` together with medium quality,
no catalog model satisfies both, so routing always fails and no envelope
is ever produced. -/
theorem chatCompletion_defaults_infeasible :
    defaultChatConstraints.requiredQuality = Quality.medium ∧
      defaultChatConstraints.requiredCapabilities = ["basic_reasoning"] ∧
      availableModels defaultChatConstraints = [] ∧
      ∀ (request : ChatRequest) (orgId : String)
        (openaiChat : ChatCallParams → Except String ChatCompletion),
        chatCompletion request orgId openaiChat =
          (Except.error ("No models available for the given constraints"), []) :=
  ⟨rfl, rfl, availableModels_defaults_empty,
   fun request orgId openaiChat => chatCompletion_always_errors request orgId openaiChat⟩

/-- C3: refuted on the code, which is the slip (its own comment says
"Simplified cost summary - return placeholder data"): `getCostSummary`
ignores the organization, the month, and all execution history — there is
no ledger anywhere in the class — and always returns the zero summary, so
it cannot equal the fold over N recorded calls for any N ≥ 1. -/
theorem getCostSummary_placeholder (orgId : String) (month : Option String) :
    getCostSummary orgId month =
      { totalCost := 0, totalTokens := 0, requests := 0, breakdown := [] } := rfl

/-- C4: `calculateCost` is exactly the per-1000-token rate formula, and a
successful chat execution returns that exact value in the envelope and
logs that exact value, with no rounding in between. -/
theorem calculateCost_exact :
    (∀ (inputTokens outputTokens : ℚ) (model : ModelConfig),
        calculateCost inputTokens outputTokens model =
          (inputTokens / 1000) * model.costPer1kInput +
            (outputTokens / 1000) * model.costPer1kOutput) ∧
      ∀ (request : ChatRequest) (selectedModel : ModelConfig) (orgId : String)
        (openaiChat : ChatCallParams → Except String ChatCompletion)
        (env : ModelResponse) (events : List (String × ℚ)),
        tryChat request selectedModel orgId openaiChat = (Except.ok env, events) →
        env.usage.cost =
            (env.usage.promptTokens / 1000) * selectedModel.costPer1kInput +
              (env.usage.completionTokens / 1000) * selectedModel.costPer1kOutput ∧
          events = [(orgId, env.usage.cost)] := by
  refine ⟨fun i o m => rfl, ?_⟩
  intro request selectedModel orgId openaiChat env events h
  rcases hoc : openaiChat (buildChatParams request selectedModel) with e | completion <;>
    simp only [tryChat, hoc] at h
  · simp at h
  · rcases hu : completion.usage with _ | usage <;> simp only [hu] at h
    · simp at h
    · rcases hch : completion.choices with _ | ⟨choice0, rest⟩ <;> simp only [hch] at h
      · simp at h
      · simp only [Prod.mk.injEq, Except.ok.injEq] at h
        obtain ⟨henv, hev⟩ := h
        subst henv
        subst hev
        exact ⟨rfl, rfl⟩

/-- A chat request fixture used by witnesses. -/
def reqW : ChatRequest :=
  { messages := [{ role := Role.user, content := "hi", name := none }]
    model := none
    maxTokens := none
    temperature := none
    topP := none
    stream := none }

/-- A provider chat oracle fixture returning a fixed successful
completion with usage 100 input and 50 output tokens. -/
def okOracleW : ChatCallParams → Except String ChatCompletion := fun _ =>
  Except.ok
    { choices := [{ content := some ("hello"), finish_reason := "stop" }]
      usage := some { prompt_tokens := 100, completion_tokens := 50, total_tokens := 150 } }

/-- The envelope produced by `tryChat` on `reqW`, `gpt4oMini` and
`okOracleW`. -/
def envW : ModelResponse :=
  { provider := "openai"
    model := "gpt-4o-mini"
    content := "hello"
    usage :=
      { promptTokens := 100
        completionTokens := 50
        totalTokens := 150
        cost := calculateCost 100 50 gpt4oMini } }

/-- Witness for C4: a concrete successful chat execution whose envelope
carries the exact rate formula value. -/
theorem calculateCost_exact_witness :
    tryChat reqW gpt4oMini ("orgW") okOracleW = (Except.ok envW, [("orgW", envW.usage.cost)]) ∧
      envW.usage.cost =
          (envW.usage.promptTokens / 1000) * gpt4oMini.costPer1kInput +
            (envW.usage.completionTokens / 1000) * gpt4oMini.costPer1kOutput ∧
        [("orgW", envW.usage.cost)] = [("orgW", envW.usage.cost)] :=
  ⟨rfl, calculateCost_exact.2 reqW gpt4oMini ("orgW") okOracleW envW
    [("orgW", envW.usage.cost)] rfl⟩

/-- C7: a provider failure is rethrown unchanged by the chat try-block
with no cost event; a chatCompletion call against an always-failing
provider fails with no cost event (it already fails at routing, before
any provider call); and generateEmbeddings rethrows the provider error
unchanged with no cost event. -/
theorem provider_failure_resurfaced :
    (∀ (request : ChatRequest) (selectedModel : ModelConfig) (orgId : String)
        (openaiChat : ChatCallParams → Except String ChatCompletion) (e : String),
        openaiChat (buildChatParams request selectedModel) = Except.error e →
        tryChat request selectedModel orgId openaiChat = (Except.error e, [])) ∧
      (∀ (request : ChatRequest) (orgId : String)
          (openaiChat : ChatCallParams → Except String ChatCompletion),
          (∀ params, ∃ e, openaiChat params = Except.error e) →
          (∃ msg, (chatCompletion request orgId openaiChat).1 = Except.error msg) ∧
            (chatCompletion request orgId openaiChat).2 = []) ∧
      ∀ (request : EmbeddingRequest) (orgId : String)
        (openaiEmbed : String → EmbeddingInput → Except String ProviderEmbeddings)
        (e : String),
        openaiEmbed textEmbedding3Small.model request.input = Except.error e →
        generateEmbeddings request orgId openaiEmbed = (Except.error e, []) := by
  refine ⟨?_, ?_, ?_⟩
  · intro request selectedModel orgId openaiChat e he
    simp [tryChat, he]
  · intro request orgId openaiChat hfail
    rw [chatCompletion_always_errors request orgId openaiChat]
    exact ⟨⟨_, rfl⟩, rfl⟩
  · intro request orgId openaiEmbed e he
    simp [generateEmbeddings, modelsGet_embedding, he]

/-- An embedding request fixture with two input texts. -/
def embedReqW : EmbeddingRequest :=
  { input := EmbeddingInput.many ["a", "b"], model := none }

/-- Witness for C7: a provider that always throws. -/
theorem provider_failure_resurfaced_witness :
    tryChat reqW gpt4oMini ("orgW") (fun _ => Except.error ("boom")) = (Except.error ("boom"), []) ∧
      ((∃ msg,
          (chatCompletion reqW ("orgW") (fun _ => Except.error ("boom"))).1 = Except.error msg) ∧
        (chatCompletion reqW ("orgW") (fun _ => Except.error ("boom"))).2 = []) ∧
      generateEmbeddings embedReqW ("orgW") (fun _ _ => Except.error ("boom")) =
        (Except.error ("boom"), []) :=
  ⟨provider_failure_resurfaced.1 reqW gpt4oMini ("orgW") (fun _ => Except.error ("boom")) "boom" rfl,
   provider_failure_resurfaced.2.1 reqW ("orgW") (fun _ => Except.error ("boom"))
     (fun _ => ⟨"boom", rfl⟩),
   provider_failure_resurfaced.2.2 embedReqW ("orgW") (fun _ _ => Except.error ("boom")) "boom" rfl⟩

/-- C9: a provider chat response without a usage block makes the try-block
fail with the no-usage error, producing no envelope and no cost event;
and any chatCompletion call against such a provider fails with no cost
event. -/
theorem chat_missing_usage_errors :
    (∀ (request : ChatRequest) (selectedModel : ModelConfig) (orgId : String)
        (openaiChat : ChatCallParams → Except String ChatCompletion)
        (completion : ChatCompletion),
        openaiChat (buildChatParams request selectedModel) = Except.ok completion →
        completion.usage = none →
        tryChat request selectedModel orgId openaiChat =
          (Except.error ("No usage data received from OpenAI"), [])) ∧
      ∀ (request : ChatRequest) (orgId : String)
        (openaiChat : ChatCallParams → Except String ChatCompletion),
        (∀ params, ∃ completion,
          openaiChat params = Except.ok completion ∧ completion.usage = none) →
        ∃ msg, chatCompletion request orgId openaiChat = (Except.error msg, []) := by
  refine ⟨?_, ?_⟩
  · intro request selectedModel orgId openaiChat completion hok hu
    simp [tryChat, hok, hu]
  · intro request orgId openaiChat hnousage
    exact ⟨_, chatCompletion_always_errors request orgId openaiChat⟩

/-- A provider chat completion fixture lacking the usage block. -/
def noUsageCompletionW : ChatCompletion :=
  { choices := [{ content := some ("x"), finish_reason := "stop" }], usage := none }

/-- A provider chat oracle fixture whose responses lack the usage block. -/
def noUsageOracleW : ChatCallParams → Except String ChatCompletion := fun _ =>
  Except.ok noUsageCompletionW

/-- Witness for C9 against the usage-less provider fixture. -/
theorem chat_missing_usage_errors_witness :
    tryChat reqW gpt4oMini ("orgW") noUsageOracleW =
        (Except.error ("No usage data received from OpenAI"), []) ∧
      ∃ msg, chatCompletion reqW ("orgW") noUsageOracleW = (Except.error msg, []) :=
  ⟨chat_missing_usage_errors.1 reqW gpt4oMini ("orgW") noUsageOracleW
    noUsageCompletionW rfl rfl,
   chat_missing_usage_errors.2 reqW ("orgW") noUsageOracleW
    (fun _ => ⟨noUsageCompletionW, rfl, rfl⟩)⟩

/-- C10: in the provider-call arguments, a zero generation parameter is
treated exactly like an omitted one: `maxTokens` zero or omitted becomes
1000 capped at the model maximum, `temperature` zero or omitted becomes
0.7, `topP` zero or omitted becomes 1; nonzero values pass through,
`maxTokens` capped at the model maximum. -/
theorem buildChatParams_zero_as_omitted (request : ChatRequest) (selectedModel : ModelConfig) :
    ((request.maxTokens = none ∨ request.maxTokens = some 0) →
        (buildChatParams request selectedModel).max_tokens =
          min 1000 selectedModel.maxTokens) ∧
      (∀ v : ℚ, request.maxTokens = some v → v ≠ 0 →
        (buildChatParams request selectedModel).max_tokens =
          min v selectedModel.maxTokens) ∧
      ((request.temperature = none ∨ request.temperature = some 0) →
        (buildChatParams request selectedModel).temperature = 0.7) ∧
      (∀ v : ℚ, request.temperature = some v → v ≠ 0 →
        (buildChatParams request selectedModel).temperature = v) ∧
      ((request.topP = none ∨ request.topP = some 0) →
        (buildChatParams request selectedModel).top_p = 1) ∧
      ∀ v : ℚ, request.topP = some v → v ≠ 0 →
        (buildChatParams request selectedModel).top_p = v := by
  refine ⟨?_, ?_, ?_, ?_, ?_, ?_⟩
  · rintro (h | h) <;> simp [buildChatParams, jsOr, h]
  · intro v hv hnz; simp [buildChatParams, jsOr, hv, hnz]
  · rintro (h | h) <;> simp [buildChatParams, jsOr, h]
  · intro v hv hnz; simp [buildChatParams, jsOr, hv, hnz]
  · rintro (h | h) <;> simp [buildChatParams, jsOr, h]
  · intro v hv hnz; simp [buildChatParams, jsOr, hv, hnz]

/-- A chat request fixture with a zero `maxTokens`, a nonzero
`temperature` and an omitted `topP`. -/
def reqZeroW : ChatRequest :=
  { messages := []
    model := none
    maxTokens := some 0
    temperature := some 2
    topP := none
    stream := none }

/-- Witness for C10 on the mixed zero/nonzero/omitted fixture. -/
theorem buildChatParams_zero_as_omitted_witness :
    (buildChatParams reqZeroW gpt4o).max_tokens = min 1000 gpt4o.maxTokens ∧
      (buildChatParams reqZeroW gpt4o).temperature = 2 ∧
      (buildChatParams reqZeroW gpt4o).top_p = 1 :=
  ⟨(buildChatParams_zero_as_omitted reqZeroW gpt4o).1 (Or.inr rfl),
   (buildChatParams_zero_as_omitted reqZeroW gpt4o).2.2.2.1 2 rfl two_ne_zero,
   (buildChatParams_zero_as_omitted reqZeroW gpt4o).2.2.2.2.1 (Or.inl rfl)⟩

/-- C6: for a provider embeddings response with one item per input text,
the envelope holds exactly that many vectors in the provider's order, and
the logged cost is computed with zero output tokens. -/
theorem generateEmbeddings_order_preserving
    (request : EmbeddingRequest) (orgId : String)
    (openaiEmbed : String → EmbeddingInput → Except String ProviderEmbeddings)
    (r : ProviderEmbeddings)
    (hok : openaiEmbed textEmbedding3Small.model request.input = Except.ok r)
    (hlen : r.data.length = (inputTexts request.input).length) :
    ∃ resp, generateEmbeddings request orgId openaiEmbed =
        (Except.ok resp, [(orgId, calculateCost r.usage.prompt_tokens 0 textEmbedding3Small)]) ∧
      resp.data.length = (inputTexts request.input).length ∧
      resp.data.map (fun item => item.embedding) = r.data.map (fun item => item.embedding) ∧
      resp.usage.promptTokens = r.usage.prompt_tokens := by
  refine ⟨⟨r.data.map fun item => ⟨item.embedding, item.index, item.object⟩,
    textEmbedding3Small.model, ⟨r.usage.prompt_tokens, r.usage.total_tokens⟩⟩,
    ?_, ?_, ?_, ?_⟩
  · simp [generateEmbeddings, modelsGet_embedding, hok]
  · simpa using hlen
  · simp [List.map_map]
  · rfl

/-- A provider embeddings response fixture with two vectors. -/
def embedRespW : ProviderEmbeddings :=
  { data :=
      [{ embedding := [1, 2], index := 0, object := "embedding" },
       { embedding := [3, 4], index := 1, object := "embedding" }]
    usage := { prompt_tokens := 5, total_tokens := 5 } }

/-- Witness for C6: two input texts, two returned vectors. -/
theorem generateEmbeddings_order_preserving_witness :
    (fun _ _ => Except.ok embedRespW : String → EmbeddingInput → Except String ProviderEmbeddings)
        textEmbedding3Small.model embedReqW.input = Except.ok embedRespW ∧
      embedRespW.data.length = (inputTexts embedReqW.input).length ∧
      ∃ resp, generateEmbeddings embedReqW ("orgW") (fun _ _ => Except.ok embedRespW) =
          (Except.ok resp,
            [("orgW", calculateCost embedRespW.usage.prompt_tokens 0 textEmbedding3Small)]) ∧
        resp.data.length = (inputTexts embedReqW.input).length ∧
        resp.data.map (fun item => item.embedding) =
          embedRespW.data.map (fun item => item.embedding) ∧
        resp.usage.promptTokens = embedRespW.usage.prompt_tokens :=
  ⟨rfl, rfl,
   generateEmbeddings_order_preserving embedReqW ("orgW")
    (fun _ _ => Except.ok embedRespW) embedRespW rfl rfl⟩

set_option maxHeartbeats 2000000 in
/-- C1: whenever at least one catalog model passes the quality, capability
and cost filters, `routeRequest` succeeds with a feasible model of minimal
combined per-1000-token rate; among feasible models of equal combined rate
it is one of minimal latency, and it agrees with the spec-side selection
`specSelect`, which breaks full ties by catalog insertion order. -/
theorem routeRequest_selects_cheapest (constraints : RoutingConstraints)
    (h : availableModels constraints ≠ []) :
    ∃ m, routeRequest constraints = Except.ok m ∧
      m ∈ availableModels constraints ∧
      (∀ m2 ∈ availableModels constraints, combinedCost m ≤ combinedCost m2) ∧
      (∀ m2 ∈ availableModels constraints,
        combinedCost m2 = combinedCost m → m.latencyMs ≤ m2.latencyMs) ∧
      specSelect constraints = some m := by
  cases h1 : passesFilter constraints gpt4o <;>
    cases h2 : passesFilter constraints gpt4oMini <;>
      cases h3 : passesFilter constraints gpt35turbo <;>
        cases h4 : passesFilter constraints textEmbedding3Small <;>
          first
            | (refine absurd ?_ h
               simp [availableModels, initializeModels, h1, h2, h3, h4]
               done)
            | (refine ⟨textEmbedding3Small, ?_⟩
               simp [routeRequest, specSelect, availableModels, initializeModels,
                 h1, h2, h3, h4]
               all_goals norm_num +decide [sortByCost, insertByCost, combinedCost,
                 gpt4o, gpt4oMini, gpt35turbo, textEmbedding3Small]
               done)
            | (refine ⟨gpt4oMini, ?_⟩
               simp [routeRequest, specSelect, availableModels, initializeModels,
                 h1, h2, h3, h4]
               all_goals norm_num +decide [sortByCost, insertByCost, combinedCost,
                 gpt4o, gpt4oMini, gpt35turbo, textEmbedding3Small]
               done)
            | (refine ⟨gpt35turbo, ?_⟩
               simp [routeRequest, specSelect, availableModels, initializeModels,
                 h1, h2, h3, h4]
               all_goals norm_num +decide [sortByCost, insertByCost, combinedCost,
                 gpt4o, gpt4oMini, gpt35turbo, textEmbedding3Small]
               done)
            | (refine ⟨gpt4o, ?_⟩
               simp [routeRequest, specSelect, availableModels, initializeModels,
                 h1, h2, h3, h4]
               all_goals norm_num +decide [sortByCost, insertByCost, combinedCost,
                 gpt4o, gpt4oMini, gpt35turbo, textEmbedding3Small]
               done)

/-- A fully permissive constraints fixture: lowest quality tier, no
required capability, zero (falsy) cost ceiling. -/
def lowConstraintsW : RoutingConstraints :=
  { maxCost := 0
    maxLatency := 0
    requiredQuality := Quality.low
    requiredCapabilities := []
    task := "t"
    locale := "en" }

/-- Witness for C1: under the fully permissive constraints every catalog
entry is feasible and the cheapest is selected. -/
theorem routeRequest_selects_cheapest_witness :
    availableModels lowConstraintsW ≠ [] ∧
      ∃ m, routeRequest lowConstraintsW = Except.ok m ∧
        m ∈ availableModels lowConstraintsW ∧
        (∀ m2 ∈ availableModels lowConstraintsW, combinedCost m ≤ combinedCost m2) ∧
        (∀ m2 ∈ availableModels lowConstraintsW,
          combinedCost m2 = combinedCost m → m.latencyMs ≤ m2.latencyMs) ∧
        specSelect lowConstraintsW = some m :=
  ⟨by simp [availableModels, initializeModels, passesFilter, lowConstraintsW],
   routeRequest_selects_cheapest lowConstraintsW
    (by simp [availableModels, initializeModels, passesFilter, lowConstraintsW])⟩
